import Mathlib

/-!
The script `app.js` of express-setup-on-ubuntu.

A shallow embedding of the one source file of the repository, `app.js`:

```
const app = express()
const PORT = process.env.PORT || 3000
app.get("/", (req, res) => { res.send("Hello from Express!") })
app.listen(PORT, "0.0.0.0", () => {
  console.log(`Server running on http://0.0.0.0:${PORT}`)
})
```

The script is embedded statement by statement.  JavaScript values are a small
inductive type, the process environment is an association list, and the script
itself is the function `main`.  The web framework and the language runtime are
collaborators that live outside the repository; the few operations of theirs
that the script calls (`res.send`, `app.get`, request dispatch, `app.listen`,
`console.log`, the fate of an uncaught error) are modelled in the section
"Collaborators" from what the specification says about them.
-/

namespace ExpressSetup

/-! ## JavaScript values -/

/-- The JavaScript values that occur in `app.js`: `undefined` (an absent
environment variable), strings (a present environment variable) and
non-negative integer numbers (the literal `3000`). -/
inductive JSVal where
  | undefined : JSVal
  | str (s : String) : JSVal
  | num (n : Nat) : JSVal
  deriving DecidableEq, Repr

namespace JSVal

/-- JavaScript truthiness (`ToBoolean`): `undefined` is falsy, a string is
truthy exactly when it is not the empty string, a number is truthy exactly when
it is not zero. -/
def truthy : JSVal → Bool
  | undefined => false
  | str s => if s = "" then false else true
  | num n => if n = 0 then false else true

/-- The JavaScript operator `a || b`: `a` when `a` is truthy, else `b`. -/
def or (a b : JSVal) : JSVal :=
  if a.truthy then a else b

/-- String conversion as done by a template literal: a string is itself, a
number is its decimal form, `undefined` is the word "undefined". -/
def toStr : JSVal → String
  | undefined => "undefined"
  | str s => s
  | num n => Nat.repr n

end JSVal

/-! ## The process environment -/

/-- The process environment: variable names with their (string) values. -/
abbrev Env := List (String × String)

/-- The expression `process.env[name]`: the string the variable holds, or
`undefined` when the variable is not set. -/
def processEnv (env : Env) (name : String) : JSVal :=
  match env.lookup name with
  | some s => JSVal.str s
  | none => JSVal.undefined

/-! ## Collaborators (web framework and runtime) -/

/-- An incoming HTTP request, as far as the script can see it. -/
structure Request where
  method : String
  path : String
  query : String
  headers : List (String × String)
  body : String
  deriving DecidableEq, Repr

/-- The response under construction: its status code and the body the
application has sent (`none` while the application has sent nothing). -/
structure Response where
  statusCode : Nat
  body : Option String
  deriving DecidableEq, Repr

/-- The response object the framework hands to a handler: status 200 and
nothing sent. -/
def Response.fresh : Response :=
  { statusCode := 200, body := none }

/-- Modelled from the spec: the framework method `res.send`, which is not part
of this repository.  It sends the given text as the response body; the status
code is whatever it was. -/
def Response.send (res : Response) (text : String) : Response :=
  { res with body := some text }

/-- A request handler, `(req, res) => ...`, as a function of the request
and the response object to the response object after the call. -/
abbrev Handler := Request → Response → Response

/-- A route: a (method, path) pair mapped to a handler. -/
structure Route where
  method : String
  path : String
  handler : Handler

/-- Whether a route is the entry for a request: same method, same path. -/
def Route.matches (r : Route) (req : Request) : Bool :=
  decide (r.method = req.method) && decide (r.path = req.path)

/-- The application object: its route table, in registration order. -/
structure App where
  routes : List Route

/-- The call `express()`: an application with an empty route table. -/
def express : App :=
  { routes := [] }

/-- Modelled from the spec: the framework method `app.get(path, handler)`,
which is not part of this repository.  It adds the route (GET, path) with the
given handler to the route table. -/
def App.get (a : App) (path : String) (h : Handler) : App :=
  { routes := a.routes ++ [{ method := "GET", path := path, handler := h }] }

/-- Modelled from the spec: the default of the framework for a request that
no route matches, which is not part of this repository: status 404 and no
body defined by the application. -/
def notFound : Response :=
  { statusCode := 404, body := none }

/-- Modelled from the spec: request dispatch of the framework, which is not
part of this repository.  The first route that matches the request runs its
handler on a fresh response object; a request that no route matches gets the
default response of the framework. -/
def App.handle (a : App) (req : Request) : Response :=
  match a.routes.find? (fun r => r.matches req) with
  | some r => r.handler req Response.fresh
  | none => notFound

/-- The responses to a sequence of requests, in order. -/
def App.serveAll (a : App) (reqs : List Request) : List Response :=
  reqs.map a.handle

/-- Why a listening socket could not be bound. -/
inductive ListenError where
  | addrInUse : ListenError
  | badPort : ListenError
  | accessDenied : ListenError
  deriving DecidableEq, Repr

/-- The platform under the process: whether binding a listening socket to a
port and a host address succeeds, and if not, why. -/
structure Platform where
  bind : JSVal → String → Except ListenError Unit

/-- The arguments of one call of `app.listen`. -/
structure ListenCall where
  port : JSVal
  host : String
  deriving DecidableEq, Repr

/-- What is observable of the process so far: the calls of `app.listen` made
and the lines written to standard output. -/
structure Effects where
  listenCalls : List ListenCall
  stdout : List String
  deriving DecidableEq, Repr

/-- Nothing has happened yet. -/
def Effects.empty : Effects :=
  { listenCalls := [], stdout := [] }

/-- The call `console.log(line)`: one more line on standard output. -/
def Effects.log (e : Effects) (line : String) : Effects :=
  { e with stdout := e.stdout ++ [line] }

/-- Modelled from the spec: the framework method
`app.listen(port, host, callback)`, which is not part of this repository.  The
call is recorded; when the platform binds the socket the callback runs once,
and when it does not the error is thrown to the caller and the callback does
not run. -/
def App.listen (_a : App) (port : JSVal) (host : String) (callback : Effects → Effects)
    (os : Platform) (e : Effects) : Effects × Except ListenError Unit :=
  let e1 : Effects := { e with listenCalls := e.listenCalls ++ [{ port := port, host := host }] }
  match os.bind port host with
  | Except.ok _ => (callback e1, Except.ok ())
  | Except.error err => (e1, Except.error err)

/-! ## The script `app.js` -/

/-- Line 6, `const PORT = process.env.PORT || 3000`. -/
def PORT (env : Env) : JSVal :=
  (processEnv env "PORT").or (JSVal.num 3000)

/-- Lines 9 to 11, the handler `(req, res) => { res.send("Hello from Express!") }`. -/
def rootHandler : Handler :=
  fun _req res => res.send "Hello from Express!"

/-- Lines 5 and 9 to 11: `const app = express()` followed by
`app.get("/", ...)`. -/
def app : App :=
  express.get "/" rootHandler

/-- Lines 15 to 17, the callback of `app.listen`:
`console.log` of the template literal with `PORT` spliced in. -/
def listenCallback (env : Env) : Effects → Effects :=
  fun e => e.log ("Server running on http://0.0.0.0:" ++ (PORT env).toStr)

/-- The whole script, top to bottom: the application is built, the port is
resolved, the route is registered, and `app.listen` is called once.  Nothing in
the script catches an error of `app.listen`, so the result of that call is the
result of the script. -/
def main (env : Env) (os : Platform) : Effects × Except ListenError Unit :=
  app.listen (PORT env) "0.0.0.0" (listenCallback env) os Effects.empty

/-- How a run of the process stands after the script has been executed. -/
inductive Status where
  | listening : Status
  | exited (code : Nat) : Status
  deriving DecidableEq, Repr

/-- Modelled from the spec: the language runtime at the process boundary,
which is not part of this repository.  A script that ends without error leaves
the process listening; an error that reaches the process boundary terminates
the process with exit status 1. -/
def processStatus (env : Env) (os : Platform) : Status :=
  match (main env os).2 with
  | Except.ok _ => Status.listening
  | Except.error _ => Status.exited 1

/-- The responses the process gives to a sequence of requests: those of the
application while the process is listening, none when it has exited. -/
def served (env : Env) (os : Platform) (reqs : List Request) : List Response :=
  match processStatus env os with
  | Status.listening => app.serveAll reqs
  | Status.exited _ => []

/-! ## The script, statement by statement -/

/-- The bindings of the script and what it has done, at one point of its
execution: the constants `app` and `PORT` (`none` while the declaration has not
been executed yet), the effects so far, and the result of the statements
executed so far. -/
structure Store where
  app : Option App
  PORT : Option JSVal
  effects : Effects
  result : Except ListenError Unit

/-- The store before the first statement. -/
def Store.init : Store :=
  { app := none, PORT := none, effects := Effects.empty, result := Except.ok () }

/-- The four top-level statements of `app.js`, named by their first line. -/
inductive Stmt where
  | line5 : Stmt
  | line6 : Stmt
  | line9 : Stmt
  | line15 : Stmt
  deriving DecidableEq, Repr

/-- One statement of the script, executed on a store.  Line 5 declares `app`,
line 6 declares `PORT`, lines 9 to 11 register the route on `app`, lines 15 to
17 call `app.listen` with the value of `PORT`, the literal host and the
callback that logs the template literal.  A statement that reads a constant
before its declaration does nothing here; in the order of the script that
does not occur. -/
def exec (env : Env) (os : Platform) : Stmt → Store → Store
  | Stmt.line5, st => { st with app := some express }
  | Stmt.line6, st => { st with PORT := some ((processEnv env "PORT").or (JSVal.num 3000)) }
  | Stmt.line9, st => { st with app := st.app.map (fun a => a.get "/" rootHandler) }
  | Stmt.line15, st =>
    match st.app, st.PORT with
    | some a, some p =>
      let r := a.listen p "0.0.0.0"
        (fun e => e.log ("Server running on http://0.0.0.0:" ++ p.toStr)) os st.effects
      { st with effects := r.1, result := r.2 }
    | _, _ => st

/-- The statements of `app.js` in source order. -/
def script : List Stmt :=
  [Stmt.line5, Stmt.line6, Stmt.line9, Stmt.line15]

/-- The stores the script goes through: the initial one and the one after
each statement. -/
def trace (env : Env) (os : Platform) : List Store :=
  script.scanl (fun st stmt => exec env os stmt st) Store.init

/-! ## Vocabulary of the claims -/

/-- The number a string of decimal digits denotes; `none` for the empty string
and for a string with any other character. -/
def parseDecimal (s : String) : Option Nat :=
  if s.data ≠ [] ∧ s.data.all Char.isDigit = true then
    some (s.data.foldl (fun n c => 10 * n + (c.toNat - 48)) 0)
  else
    none

/-- The port number a value handed to `app.listen` denotes: a number denotes
itself, a string denotes what it parses to, `undefined` denotes none. -/
def portNumber : JSVal → Option Nat
  | JSVal.undefined => none
  | JSVal.str s => parseDecimal s
  | JSVal.num n => some n

/-- A value denotes a valid TCP port: an integer from 1 to 65535. -/
def ValidPort (v : JSVal) : Prop :=
  match portNumber v with
  | some n => 1 ≤ n ∧ n ≤ 65535
  | none => False

instance (v : JSVal) : Decidable (ValidPort v) := by
  unfold ValidPort
  cases portNumber v <;> infer_instance

/-- A platform on which every bind succeeds. -/
def Platform.free : Platform :=
  { bind := fun _ _ => Except.ok () }

/-- A platform on which every port is already bound by another process. -/
def Platform.busy : Platform :=
  { bind := fun _ _ => Except.error ListenError.addrInUse }

/-- A sample request: method, path, and some query, headers and body. -/
def sampleRequest (method path : String) : Request :=
  { method := method, path := path, query := "a=1",
    headers := [("If-None-Match", "x")], body := "payload" }

/-! ## Lemmas on the script -/

theorem PORT_unset (env : Env) (h : env.lookup "PORT" = none) :
    PORT env = JSVal.num 3000 := by
  simp [PORT, processEnv, h, JSVal.or, JSVal.truthy]

theorem PORT_empty (env : Env) (h : env.lookup "PORT" = some "") :
    PORT env = JSVal.num 3000 := by
  simp [PORT, processEnv, h, JSVal.or, JSVal.truthy]

theorem PORT_nonempty (env : Env) (s : String) (h : env.lookup "PORT" = some s)
    (hs : s ≠ "") : PORT env = JSVal.str s := by
  simp [PORT, processEnv, h, JSVal.or, JSVal.truthy, hs]

theorem parseDecimal_ne_empty (s : String) (n : Nat) (h : parseDecimal s = some n) :
    s ≠ "" := by
  intro hs
  subst hs
  simp [parseDecimal] at h

theorem main_listenCalls (env : Env) (os : Platform) :
    (main env os).1.listenCalls = [{ port := PORT env, host := "0.0.0.0" }] := by
  unfold main App.listen
  cases os.bind (PORT env) "0.0.0.0" <;>
    simp [Effects.empty, listenCallback, Effects.log]

theorem main_bind_ok (env : Env) (os : Platform)
    (h : os.bind (PORT env) "0.0.0.0" = Except.ok ()) :
    (main env os).1.stdout = ["Server running on http://0.0.0.0:" ++ (PORT env).toStr] ∧
      (main env os).2 = Except.ok () := by
  simp [main, App.listen, h, Effects.empty, listenCallback, Effects.log]

theorem main_bind_error (env : Env) (os : Platform) (err : ListenError)
    (h : os.bind (PORT env) "0.0.0.0" = Except.error err) :
    (main env os).1.stdout = [] ∧ (main env os).2 = Except.error err := by
  simp [main, App.listen, h, Effects.empty]

theorem app_routes :
    app.routes = [{ method := "GET", path := "/", handler := rootHandler }] := by
  simp [app, App.get, express]

theorem app_handle_root (req : Request) (hm : req.method = "GET") (hp : req.path = "/") :
    app.handle req = { statusCode := 200, body := some "Hello from Express!" } := by
  simp [App.handle, app_routes, Route.matches, hm, hp, rootHandler, Response.send,
    Response.fresh]

theorem app_no_match (req : Request) (h : ¬ (req.method = "GET" ∧ req.path = "/")) :
    app.routes.find? (fun r => r.matches req) = none := by
  have h2 : ¬ ("GET" = req.method ∧ "/" = req.path) := fun ⟨a, b⟩ => h ⟨a.symm, b.symm⟩
  simp only [app_routes, List.find?_cons, List.find?_nil, Route.matches]
  by_cases hm : "GET" = req.method
  · have hp : ¬ ("/" = req.path) := fun hp => h2 ⟨hm, hp⟩
    simp [hm, hp]
  · simp [hm]

/-! ## The claims -/

/-- C1: for every request to the handler registered for GET "/", whatever its
query string, headers and body, the route table holds that handler, the handler
sends exactly the text "Hello from Express!" on whatever response object it is
given and leaves the status code of that object as it was, so that the response
has status 200 and that body; and this is also the response to the request
after any sequence of earlier requests. -/
theorem root_handler_sends_greeting (earlier : List Request) (req : Request)
    (hm : req.method = "GET") (hp : req.path = "/") :
    app.routes.find? (fun r => r.matches req)
        = some { method := "GET", path := "/", handler := rootHandler } ∧
      (∀ res : Response, rootHandler req res
        = { statusCode := res.statusCode, body := some "Hello from Express!" }) ∧
      app.handle req = { statusCode := 200, body := some "Hello from Express!" } ∧
      (app.serveAll (earlier ++ [req])).getLast?
        = some { statusCode := 200, body := some "Hello from Express!" } := by
  refine ⟨?_, ?_, app_handle_root req hm hp, ?_⟩
  · simp [app_routes, Route.matches, hm, hp]
  · intro res
    simp [rootHandler, Response.send]
  · simp [App.serveAll, app_handle_root req hm hp]

theorem root_handler_sends_greeting_witness :
    (app.serveAll ([sampleRequest "POST" "/x", sampleRequest "GET" "/"]
        ++ [sampleRequest "GET" "/"])).getLast?
      = some { statusCode := 200, body := some "Hello from Express!" } :=
  (root_handler_sends_greeting [sampleRequest "POST" "/x", sampleRequest "GET" "/"]
    (sampleRequest "GET" "/") (by decide) (by decide)).2.2.2

/-- C2: when the environment variable PORT is unset or is the empty string,
the resolved port is the number 3000, and that number is the port passed to
`app.listen`. -/
theorem port_defaults_to_3000 (env : Env) (os : Platform)
    (h : env.lookup "PORT" = none ∨ env.lookup "PORT" = some "") :
    PORT env = JSVal.num 3000 ∧
      (main env os).1.listenCalls = [{ port := JSVal.num 3000, host := "0.0.0.0" }] := by
  have hP : PORT env = JSVal.num 3000 := by
    rcases h with h | h
    · exact PORT_unset env h
    · exact PORT_empty env h
  exact ⟨hP, by rw [main_listenCalls, hP]⟩

theorem port_defaults_to_3000_witness :
    (PORT [] = JSVal.num 3000 ∧
      (main [] Platform.free).1.listenCalls = [{ port := JSVal.num 3000, host := "0.0.0.0" }]) ∧
    (PORT [("HOME", "/root"), ("PORT", "")] = JSVal.num 3000 ∧
      (main [("HOME", "/root"), ("PORT", "")] Platform.free).1.listenCalls
        = [{ port := JSVal.num 3000, host := "0.0.0.0" }]) :=
  ⟨port_defaults_to_3000 [] Platform.free (Or.inl (by decide)),
    port_defaults_to_3000 [("HOME", "/root"), ("PORT", "")] Platform.free (Or.inr (by decide))⟩

/-- C3: for every non-empty string s held by the environment variable PORT
(digits or not, "0", blanks only), the resolved port is the string s itself,
unchanged, it is not the default 3000, and it is the port passed to
`app.listen`; port resolution is a total function, so it cannot fail. -/
theorem port_is_env_string (env : Env) (os : Platform) (s : String)
    (h : env.lookup "PORT" = some s) (hs : s ≠ "") :
    PORT env = JSVal.str s ∧ PORT env ≠ JSVal.num 3000 ∧
      (main env os).1.listenCalls = [{ port := JSVal.str s, host := "0.0.0.0" }] := by
  have hP : PORT env = JSVal.str s := PORT_nonempty env s h hs
  refine ⟨hP, ?_, by rw [main_listenCalls, hP]⟩
  rw [hP]
  exact fun hne => JSVal.noConfusion hne

theorem port_is_env_string_witness :
    PORT [("PORT", " ")] = JSVal.str " " ∧ PORT [("PORT", " ")] ≠ JSVal.num 3000 ∧
      (main [("PORT", " ")] Platform.busy).1.listenCalls
        = [{ port := JSVal.str " ", host := "0.0.0.0" }] :=
  port_is_env_string [("PORT", " ")] Platform.busy " " (by decide) (by decide)

/-- C4: for every string s in the environment variable PORT that parses as an
integer n with 1 <= n <= 65535, `app.listen` is called with s as its port, and
that value denotes a valid port, namely n and no other. -/
theorem numeric_port_is_bound (env : Env) (os : Platform) (s : String) (n : Nat)
    (h : env.lookup "PORT" = some s) (hn : parseDecimal s = some n)
    (h1 : 1 ≤ n) (h2 : n ≤ 65535) :
    (main env os).1.listenCalls = [{ port := JSVal.str s, host := "0.0.0.0" }] ∧
      (∀ c ∈ (main env os).1.listenCalls,
        ValidPort c.port ∧ ∀ m, portNumber c.port = some m ↔ m = n) := by
  have hP : PORT env = JSVal.str s :=
    PORT_nonempty env s h (parseDecimal_ne_empty s n hn)
  have hc : (main env os).1.listenCalls = [{ port := JSVal.str s, host := "0.0.0.0" }] := by
    rw [main_listenCalls, hP]
  refine ⟨hc, ?_⟩
  intro c hmem
  rw [hc] at hmem
  simp only [List.mem_singleton] at hmem
  subst hmem
  refine ⟨?_, ?_⟩
  · simp only [ValidPort, portNumber, hn]
    exact ⟨h1, h2⟩
  · intro m
    simp only [portNumber, hn, Option.some.injEq]
    exact eq_comm

theorem numeric_port_is_bound_witness :
    (main [("PORT", "8080")] Platform.free).1.listenCalls
        = [{ port := JSVal.str "8080", host := "0.0.0.0" }] ∧
      (∀ c ∈ (main [("PORT", "8080")] Platform.free).1.listenCalls,
        ValidPort c.port ∧ ∀ m, portNumber c.port = some m ↔ m = 8080) :=
  numeric_port_is_bound [("PORT", "8080")] Platform.free "8080" 8080
    (by decide) (by decide) (by decide) (by decide)

/-- C5: for every environment, and whatever the platform does, the host
address passed to `app.listen` is the fixed string "0.0.0.0": every call of
`app.listen` has that host, and there is such a call. -/
theorem listen_host_is_wildcard (env : Env) (os : Platform) :
    (main env os).1.listenCalls.map ListenCall.host = ["0.0.0.0"] := by
  simp [main_listenCalls]

/-- C6: for every request whose method is GET and whose path is not exactly
"/", the route table has no entry that matches, so the response is the default
of the framework for an unmatched route: its status is not 200 and its body is
not the greeting. -/
theorem get_other_path_unmatched (req : Request)
    (hm : req.method = "GET") (hp : req.path ≠ "/") :
    (∀ r ∈ app.routes, r.matches req = false) ∧
      app.routes.find? (fun r => r.matches req) = none ∧
      app.handle req = notFound ∧
      (app.handle req).statusCode ≠ 200 ∧
      (app.handle req).body ≠ some "Hello from Express!" := by
  have _hm := hm
  have hno : app.routes.find? (fun r => r.matches req) = none :=
    app_no_match req (fun h => hp h.2)
  have hh : app.handle req = notFound := by
    simp [App.handle, hno]
  refine ⟨?_, hno, hh, ?_, ?_⟩
  · intro r hr
    have := List.find?_eq_none.mp hno r hr
    simpa using this
  · rw [hh]; decide
  · rw [hh]; decide

theorem get_other_path_unmatched_witness :
    app.handle (sampleRequest "GET" "/index.html") = notFound ∧
      (app.handle (sampleRequest "GET" "/index.html")).statusCode ≠ 200 :=
  let h := get_other_path_unmatched (sampleRequest "GET" "/index.html") (by decide) (by decide)
  ⟨h.2.2.1, h.2.2.2.1⟩

/-- C7: for every request to the path "/" whose method is not GET, the route
table has no entry that matches, the response is the default of the framework
for an unmatched route, and its body is not the greeting. -/
theorem root_other_method_unmatched (req : Request)
    (hp : req.path = "/") (hm : req.method ≠ "GET") :
    (∀ r ∈ app.routes, r.matches req = false) ∧
      app.routes.find? (fun r => r.matches req) = none ∧
      app.handle req = notFound ∧
      (app.handle req).body ≠ some "Hello from Express!" := by
  have _hp := hp
  have hno : app.routes.find? (fun r => r.matches req) = none :=
    app_no_match req (fun h => hm h.1)
  have hh : app.handle req = notFound := by
    simp [App.handle, hno]
  refine ⟨?_, hno, hh, ?_⟩
  · intro r hr
    have := List.find?_eq_none.mp hno r hr
    simpa using this
  · rw [hh]; decide

theorem root_other_method_unmatched_witness :
    app.handle (sampleRequest "POST" "/") = notFound ∧
      (app.handle (sampleRequest "POST" "/")).body ≠ some "Hello from Express!" :=
  let h := root_other_method_unmatched (sampleRequest "POST" "/") (by decide) (by decide)
  ⟨h.2.2.1, h.2.2.2⟩

/-- C8: for every resolved port p, `app.listen` is called with p, and when
listening succeeds the standard output of the program is exactly one line,
"Server running on http://0.0.0.0:" followed by the textual form of p; when
listening does not succeed nothing is written to standard output. -/
theorem startup_line (env : Env) (os : Platform) (p : JSVal) (hp : PORT env = p) :
    (main env os).1.listenCalls = [{ port := p, host := "0.0.0.0" }] ∧
      (os.bind p "0.0.0.0" = Except.ok () →
        (main env os).1.stdout = ["Server running on http://0.0.0.0:" ++ p.toStr]) ∧
      (∀ err, os.bind p "0.0.0.0" = Except.error err → (main env os).1.stdout = []) := by
  subst hp
  refine ⟨main_listenCalls env os, ?_, ?_⟩
  · intro h
    exact (main_bind_ok env os h).1
  · intro err h
    exact (main_bind_error env os err h).1

theorem startup_line_witness :
    (main [("PORT", "8080")] Platform.free).1.stdout
        = ["Server running on http://0.0.0.0:8080"] ∧
      (main [] Platform.free).1.stdout = ["Server running on http://0.0.0.0:3000"] ∧
      (main [] Platform.busy).1.stdout = [] :=
  ⟨(startup_line [("PORT", "8080")] Platform.free (JSVal.str "8080") (by decide)).2.1 rfl,
    (startup_line [] Platform.free (JSVal.num 3000) (by decide)).2.1 rfl,
    (startup_line [] Platform.busy (JSVal.num 3000) (by decide)).2.2
      ListenError.addrInUse rfl⟩

/-- C9: if binding the listening socket fails, whatever the reason, then
`app.listen` has been called exactly once, with the resolved port and no other,
the error is the result of the script (nothing in the script catches it), the
process terminates with a non-zero exit status, and no request is served. -/
theorem bind_failure_is_fatal (env : Env) (os : Platform) (err : ListenError)
    (h : os.bind (PORT env) "0.0.0.0" = Except.error err) :
    (main env os).1.listenCalls = [{ port := PORT env, host := "0.0.0.0" }] ∧
      (main env os).2 = Except.error err ∧
      (∃ code, processStatus env os = Status.exited code ∧ code ≠ 0) ∧
      (∀ reqs : List Request, served env os reqs = []) := by
  have he : (main env os).2 = Except.error err := (main_bind_error env os err h).2
  have hs : processStatus env os = Status.exited 1 := by
    simp [processStatus, he]
  refine ⟨main_listenCalls env os, he, ⟨1, hs, by decide⟩, ?_⟩
  intro reqs
  simp [served, hs]

theorem bind_failure_is_fatal_witness :
    (main [("PORT", "80")] Platform.busy).1.listenCalls
        = [{ port := PORT [("PORT", "80")], host := "0.0.0.0" }] ∧
      (main [("PORT", "80")] Platform.busy).2 = Except.error ListenError.addrInUse ∧
      (∃ code, processStatus [("PORT", "80")] Platform.busy = Status.exited code ∧ code ≠ 0) ∧
      (∀ reqs : List Request, served [("PORT", "80")] Platform.busy reqs = []) :=
  bind_failure_is_fatal [("PORT", "80")] Platform.busy ListenError.addrInUse rfl

/-- C10, as stated, fails: with PORT set to "abc" the resolved port is the
string "abc", which is not an integer from 1 to 65535. -/
theorem resolved_port_not_always_valid :
    PORT [("PORT", "abc")] = JSVal.str "abc" ∧ ¬ ValidPort (PORT [("PORT", "abc")]) := by
  decide

/-- C10, amended: for every environment the resolved port is the number 3000
when PORT is unset or empty, and otherwise the PORT string itself, unchanged
and unvalidated; it denotes an integer from 1 to 65535 when PORT is unset,
empty, or a string that parses as such an integer.  It is computed once, by
line 6, and never mutated afterwards: the constant is unset before line 6 and
holds that one value at every later point of the script, whose last store is
the outcome of `main`; the call of `app.listen` receives that value and every
line on standard output carries it. -/
theorem resolved_port_fixed (env : Env) (os : Platform) :
    (((env.lookup "PORT" = none ∨ env.lookup "PORT" = some "") ∧ PORT env = JSVal.num 3000) ∨
        (∃ s, env.lookup "PORT" = some s ∧ s ≠ "" ∧ PORT env = JSVal.str s)) ∧
      ((env.lookup "PORT" = none ∨ env.lookup "PORT" = some "" ∨
          ∃ s n, env.lookup "PORT" = some s ∧ parseDecimal s = some n ∧ 1 ≤ n ∧ n ≤ 65535) →
        ValidPort (PORT env)) ∧
      (trace env os).map Store.PORT
        = [none, none, some (PORT env), some (PORT env), some (PORT env)] ∧
      (trace env os).getLast?.map (fun st => (st.effects, st.result)) = some (main env os) ∧
      (main env os).1.listenCalls.map ListenCall.port = [PORT env] ∧
      (∀ line ∈ (main env os).1.stdout,
        line = "Server running on http://0.0.0.0:" ++ (PORT env).toStr) := by
  refine ⟨?_, ?_, ?_, ?_, by simp [main_listenCalls], ?_⟩
  · cases hl : env.lookup "PORT" with
    | none => exact Or.inl ⟨Or.inl rfl, PORT_unset env hl⟩
    | some s =>
      by_cases hs : s = ""
      · subst hs
        exact Or.inl ⟨Or.inr rfl, PORT_empty env hl⟩
      · exact Or.inr ⟨s, rfl, hs, PORT_nonempty env s hl hs⟩
  · rintro (h | h | ⟨s, n, h, hn, h1, h2⟩)
    · rw [PORT_unset env h]
      decide
    · rw [PORT_empty env h]
      decide
    · rw [PORT_nonempty env s h (parseDecimal_ne_empty s n hn)]
      simp only [ValidPort, portNumber, hn]
      exact ⟨h1, h2⟩
  · simp only [trace, script, List.scanl, exec, Store.init, Option.map, PORT]
    cases os.bind ((processEnv env "PORT").or (JSVal.num 3000)) "0.0.0.0" <;> rfl
  · simp only [trace, script, List.scanl, exec, Store.init, Option.map, main, app,
      listenCallback, PORT, List.getLast?]
    rfl
  · intro line hline
    cases hb : os.bind (PORT env) "0.0.0.0" with
    | ok u =>
      cases u
      rw [(main_bind_ok env os hb).1] at hline
      simpa using hline
    | error err =>
      rw [(main_bind_error env os err hb).1] at hline
      simp at hline

theorem resolved_port_fixed_witness :
    (trace [("PORT", "abc")] Platform.free).map Store.PORT
        = [none, none, some (JSVal.str "abc"), some (JSVal.str "abc"),
            some (JSVal.str "abc")] ∧
      (main [("PORT", "abc")] Platform.free).1.listenCalls.map ListenCall.port
        = [JSVal.str "abc"] ∧
      ValidPort (PORT [("PORT", "8080")]) :=
  ⟨(resolved_port_fixed [("PORT", "abc")] Platform.free).2.2.1,
    (resolved_port_fixed [("PORT", "abc")] Platform.free).2.2.2.2.1,
    (resolved_port_fixed [("PORT", "8080")] Platform.free).2.1
      (Or.inr (Or.inr ⟨"8080", 8080, by decide, by decide, by decide, by decide⟩))⟩

end ExpressSetup
